import Mathlib

/-!
Shallow embedding of `src/prompt_generator.py` (Mr-Macharia/Prompt-Generator).

The program is a console tool: it builds a prompt string from five
questionnaire answers, feeds it to an external text-generation pipeline,
and can save/load the prompt as a JSON file with a single key, the string
under the key named after the prompt.

Modelling conventions:
* Python objects that can come out of the standard JSON decoder are
  modelled by the inductive type `JsonVal` (numbers restricted to
  integers; floats play no role in any claim).  Python's `None` is
  `JsonVal.null`, so that a function which "returns None" and a JSON
  `null` value are literally the same thing, as they are in Python.
* The file system is a total map from filenames to `FileContent`:
  `absent` (the path does not exist), `invalid` (the path exists but the
  standard JSON decoder raises on its contents, or opening fails), or
  `json j` (the decoder yields the value `j`).  The standard `json`
  module is an external, trusted collaborator (like the model pipeline),
  so serialization is modelled at the level of decoded values: writing
  the object with the single key and the prompt string stores exactly
  that object.
* The external Hugging Face pipeline is opaque: a `Generator` is a
  function from a prompt (any Python value), `max_length` and
  `num_return_sequences` to either `none` (the call raises) or a list of
  result dictionaries, exactly the interface the script consumes.
* Console interaction in `main_menu` is modelled one loop iteration at a
  time: `IterInput` packages the strings the iteration would read from
  the console, `IterResult` records the observable effects (whether the
  loop continues, the file system afterwards, what was displayed, what
  was passed to the generator, what was saved).
-/

namespace PromptGen

/-- The five questionnaire answers collected by `get_user_input`
(`purpose`, `target_audience`, `tone`, `length`, `specific_details`).
The Python code passes them around as a dict with exactly these keys;
the record form is the same data. -/
structure QuestionnaireAnswers where
  purpose : String
  target_audience : String
  tone : String
  length : String
  specific_details : String

/-- Python values producible by the standard JSON decoder (numbers
restricted to integers).  `null` doubles as Python `None`. -/
inductive JsonVal where
  | null : JsonVal
  | bool : Bool → JsonVal
  | num : Int → JsonVal
  | str : String → JsonVal
  | arr : List JsonVal → JsonVal
  | obj : List (String × JsonVal) → JsonVal

/-- Python truthiness (`if x:`) of a `JsonVal`: `None`, `False`, `0`,
the empty string, the empty list and the empty dict are falsy. -/
def pyTruthy : JsonVal → Bool
  | .null => false
  | .bool b => b
  | .num n => n != 0
  | .str s => !s.isEmpty
  | .arr xs => !xs.isEmpty
  | .obj kvs => !kvs.isEmpty

/-- Dictionary lookup, `d.get(k)` without a default: `some v` when the
key is present with value `v`, `none` when absent.  JSON-decoded dicts
have unique keys, so first-match lookup is the dict lookup. -/
def dictGet (kvs : List (String × JsonVal)) (k : String) : Option JsonVal :=
  match kvs with
  | [] => none
  | (k2, v) :: rest => if k2 = k then some v else dictGet rest k

/-- What a filename maps to on disk: no file, a file the JSON decoder
rejects (or that cannot be read), or a file the decoder parses to `j`. -/
inductive FileContent where
  | absent : FileContent
  | invalid : FileContent
  | json : JsonVal → FileContent

/-- The local file system, as seen through `os.path.exists` and the JSON
decoder. -/
abbrev FS := String → FileContent

/-- `generate_prompt(user_input)` (lines 48-57): the three adjacent
f-strings of the source, concatenated exactly as written, with each
answer substituted verbatim. -/
def generate_prompt (user_input : QuestionnaireAnswers) : String :=
  ("Write a " ++ user_input.length ++ " response for " ++
      user_input.target_audience ++ " ") ++
    ("about " ++ user_input.purpose ++ ". The tone should be " ++
      user_input.tone ++ ". ") ++
    ("Additional details: " ++ user_input.specific_details ++ ".")

/-- `save_prompt(prompt, filename)` (lines 72-81): writes the JSON
object with the single key holding the prompt string, overwriting
whatever was at `filename`.  The write path of the model always
succeeds; the Python `except` branch (disk errors) leaves the file
system in an unspecified state and is outside every claim's
"save succeeds" hypothesis. -/
def save_prompt (fs : FS) (prompt : String) (filename : String) : FS :=
  fun g => if g = filename then .json (.obj [("prompt", .str prompt)]) else fs g

/-- `load_prompt(filename)` (lines 84-97): returns `None` (`.null`) when
the file does not exist, when the decoder raises, or when the decoded
value is not a dict (then `data.get` raises `AttributeError`, caught by
the `except`); otherwise returns `data.get("prompt", None)`. -/
def load_prompt (fs : FS) (filename : String) : JsonVal :=
  match fs filename with
  | .absent => .null
  | .invalid => .null
  | .json j =>
    match j with
    | .obj kvs => (dictGet kvs "prompt").getD .null
    | _ => .null

/-- Python `str.strip()` character class for the ASCII whitespace the
script can meet on a console line. -/
def pyIsSpace (c : Char) : Bool :=
  c == ' ' || c == '\t' || c == '\n' || c == '\x0d' || c == '\x0b' || c == '\x0c'

/-- Python `s.strip()`: drop leading and trailing whitespace. -/
def pyStrip (s : String) : String :=
  ⟨((s.data.dropWhile pyIsSpace).reverse.dropWhile pyIsSpace).reverse⟩

/-- Python `str.lower()` on the ASCII range (the script only compares
the result against a lowercase ASCII literal). -/
def pyLowerChar (c : Char) : Char :=
  if 'A' ≤ c && c ≤ 'Z' then Char.ofNat (c.toNat + 32) else c

/-- Python `s.lower()`, characterwise. -/
def pyLower (s : String) : String :=
  ⟨s.data.map pyLowerChar⟩

/-- The idiom `input(...).strip() or "prompt.json"` used for both the
save and the load filename: the trimmed input, or the default when the
trimmed input is empty. -/
def resolveFilename (raw : String) : String :=
  let t := pyStrip raw
  if t = "" then "prompt.json" else t

/-- `get_user_input()` (lines 27-45): each console answer is stripped
before being stored in the dict. -/
def get_user_input (raw : QuestionnaireAnswers) : QuestionnaireAnswers :=
  { purpose := pyStrip raw.purpose
    target_audience := pyStrip raw.target_audience
    tone := pyStrip raw.tone
    length := pyStrip raw.length
    specific_details := pyStrip raw.specific_details }

/-- The external Hugging Face pipeline object: given a prompt (any
Python value — the script passes whatever `load_prompt` returned), the
maximum length and the number of sequences, it either raises (`none`)
or returns a list of result dictionaries. -/
abbrev Generator := JsonVal → Nat → Nat → Option (List (List (String × JsonVal)))

/-- `generate_response(generator, prompt, max_length, num_return_sequences)`
(lines 60-69): calls the pipeline; on an exception logs and returns
`None` (`none`); otherwise maps each result dict to
`resp.get(the generated-text key, the empty string)`. -/
def generate_response (generator : Generator) (prompt : JsonVal)
    (max_length : Nat) (num_return_sequences : Nat) : Option (List JsonVal) :=
  match generator prompt max_length num_return_sequences with
  | none => none
  | some responses =>
      some (responses.map (fun resp => (dictGet resp "generated_text").getD (.str "")))

/-- `display_responses(responses)` (lines 100-108): `if responses:`
shows each one; a `None` or an empty list prints the
"No responses were generated." line instead.  This function returns
whether that fallback line is printed. -/
def display_responses_empty (responses : Option (List JsonVal)) : Bool :=
  match responses with
  | some (_ :: _) => false
  | _ => true

/-- The console strings one `main_menu` iteration may read: the menu
choice, the five raw questionnaire answers, the save-confirmation
answer, the save filename, the load filename.  Branches not taken
simply never read their fields. -/
structure IterInput where
  choice : String
  rawAnswers : QuestionnaireAnswers
  saveAnswer : String
  saveFilename : String
  loadFilename : String

/-- The observable effects of one `main_menu` iteration. -/
structure IterResult where
  /-- `false` exactly when the `break` of the Exit branch runs. -/
  continues : Bool
  /-- The file system after the iteration. -/
  fs : FS
  /-- The prompt printed under a banner, when one is printed
  (the built prompt in choice 1, the loaded value in choice 2). -/
  displayedPrompt : Option JsonVal
  /-- The prompt passed to `generate_and_display_responses`, when the
  generator is invoked. -/
  gatewayCalled : Option JsonVal
  /-- The result of `generate_response` for the turn, when it ran. -/
  responses : Option (List JsonVal)
  /-- Whether `display_responses` printed its no-responses line. -/
  noResponsesMsg : Bool
  /-- The filename written by `save_prompt`, when a save happened. -/
  savedTo : Option String
  /-- Whether the failed-to-load message of choice 2 was printed. -/
  loadFailedMsg : Bool
  /-- Whether the invalid-choice message of the final `else` was printed. -/
  invalidChoiceMsg : Bool

/-- One iteration of the `while True` loop of `main_menu` (lines
120-153), as a function of the console strings it reads. -/
def menuStep (generator : Generator) (max_length num_return_sequences : Nat)
    (fs : FS) (inp : IterInput) : IterResult :=
  let choice := pyStrip inp.choice
  if choice = "1" then
    let user_input := get_user_input inp.rawAnswers
    let prompt := generate_prompt user_input
    let responses := generate_response generator (.str prompt) max_length num_return_sequences
    let wantsSave := pyLower (pyStrip inp.saveAnswer) = "yes"
    let fname := resolveFilename inp.saveFilename
    { continues := true
      fs := if wantsSave then save_prompt fs prompt fname else fs
      displayedPrompt := some (.str prompt)
      gatewayCalled := some (.str prompt)
      responses := responses
      noResponsesMsg := display_responses_empty responses
      savedTo := if wantsSave then some fname else none
      loadFailedMsg := false
      invalidChoiceMsg := false }
  else if choice = "2" then
    let fname := resolveFilename inp.loadFilename
    let loaded_prompt := load_prompt fs fname
    if pyTruthy loaded_prompt then
      let responses := generate_response generator loaded_prompt max_length num_return_sequences
      { continues := true
        fs := fs
        displayedPrompt := some loaded_prompt
        gatewayCalled := some loaded_prompt
        responses := responses
        noResponsesMsg := display_responses_empty responses
        savedTo := none
        loadFailedMsg := false
        invalidChoiceMsg := false }
    else
      { continues := true
        fs := fs
        displayedPrompt := none
        gatewayCalled := none
        responses := none
        noResponsesMsg := false
        savedTo := none
        loadFailedMsg := true
        invalidChoiceMsg := false }
  else if choice = "3" then
    { continues := false
      fs := fs
      displayedPrompt := none
      gatewayCalled := none
      responses := none
      noResponsesMsg := false
      savedTo := none
      loadFailedMsg := false
      invalidChoiceMsg := false }
  else
    { continues := true
      fs := fs
      displayedPrompt := none
      gatewayCalled := none
      responses := none
      noResponsesMsg := false
      savedTo := none
      loadFailedMsg := false
      invalidChoiceMsg := true }

/-- Running the `main_menu` loop on a finite list of console
iterations: `true` when some iteration hits the `break` of the Exit
branch, `false` when the inputs run out with the loop still live. -/
def menuLoopExits (generator : Generator) (max_length num_return_sequences : Nat) :
    FS → List IterInput → Bool
  | _, [] => false
  | fs, inp :: rest =>
    let r := menuStep generator max_length num_return_sequences fs inp
    if r.continues then menuLoopExits generator max_length num_return_sequences r.fs rest
    else true

/-- `initialize_generator(model_name)` (lines 13-24): the external
pipeline construction either yields a generator or raises; the function
catches any exception, logs, and returns `None`.  The outcome of the
external call is the parameter. -/
def initialize_generator (pipelineResult : Except String Generator) : Option Generator :=
  match pipelineResult with
  | .ok generator => some generator
  | .error _ => none

/-- What running `main()` (lines 176-185) does, beyond the menu loop
itself: the process exit status and which path was taken. -/
structure MainResult where
  exitCode : Nat
  loggedInitError : Bool
  ranMainMenu : Bool

/-- `main()` (lines 176-185): on `initialize_generator` returning
`None` it logs "Generator initialization failed. Exiting." and plain
`return`s — the script then falls off the end of the module, so the
interpreter exits with status 0.  On success it runs `main_menu`, which
returns normally after the Exit choice, and the interpreter again exits
with status 0.  No `sys.exit` call appears anywhere in the script. -/
def main (pipelineResult : Except String Generator) : MainResult :=
  match initialize_generator pipelineResult with
  | none => { exitCode := 0, loggedInitError := true, ranMainMenu := false }
  | some _ => { exitCode := 0, loggedInitError := false, ranMainMenu := true }

/-! ## Helper lemmas and concrete fixtures -/

/-- Two adjacent string literals concatenate: folding a known literal
concatenation under a right-nested append. -/
theorem append_merge (a b c : String) (h : a ++ b = c) (x : String) :
    a ++ (b ++ x) = c ++ x := by
  rw [← String.append_assoc, h]

/-- The only iteration of `main_menu` that leaves the loop is the one
whose stripped choice is the Exit choice: the `break` is in that branch
and in no other. -/
theorem menuStep_continues_iff (generator : Generator) (ml ns : Nat) (fs : FS)
    (inp : IterInput) :
    ((menuStep generator ml ns fs inp).continues = false ↔ pyStrip inp.choice = "3") := by
  unfold menuStep
  by_cases h1 : pyStrip inp.choice = "1"
  · simp [h1]
  · by_cases h2 : pyStrip inp.choice = "2"
    · by_cases ht : pyTruthy (load_prompt fs (resolveFilename inp.loadFilename)) = true
      · simp [h1, h2, ht]
      · simp [h1, h2, ht]
    · by_cases h3 : pyStrip inp.choice = "3"
      · simp [h1, h2, h3]
      · simp [h1, h2, h3]

/-- A run of the `main_menu` loop over console iterations none of which
chooses Exit never reaches the `break`. -/
theorem menuLoop_no_exit (generator : Generator) (ml ns : Nat) :
    ∀ (inputs : List IterInput) (fs : FS),
      (∀ i ∈ inputs, pyStrip i.choice ≠ "3") →
      menuLoopExits generator ml ns fs inputs = false := by
  intro inputs
  induction inputs with
  | nil => intro fs _; rfl
  | cons inp rest ih =>
    intro fs hall
    have hc3 : pyStrip inp.choice ≠ "3" := hall inp (List.mem_cons_self inp rest)
    have hcont : (menuStep generator ml ns fs inp).continues = true := by
      cases h : (menuStep generator ml ns fs inp).continues with
      | true => rfl
      | false => exact absurd ((menuStep_continues_iff generator ml ns fs inp).mp h) hc3
    simp only [menuLoopExits, hcont, if_true]
    exact ih _ (fun i hi => hall i (List.mem_cons_of_mem inp hi))

/-- A pipeline whose every call raises. -/
def failGen : Generator := fun _ _ _ => none

/-- A file system with no files. -/
def emptyFS : FS := fun _ => .absent

/-- A file system whose default prompt file holds the empty prompt
string. -/
def fsEmptyPrompt : FS :=
  fun g => if g = "prompt.json" then .json (.obj [("prompt", .str "")]) else .absent

/-- A file system whose default prompt file holds a non-empty prompt
string. -/
def fsHello : FS :=
  fun g => if g = "prompt.json" then .json (.obj [("prompt", .str "hello")]) else .absent

/-- A file system with one JSON file whose object maps the prompt key
to JSON null. -/
def fsNullPrompt : FS :=
  fun g => if g = "p.json" then .json (.obj [("prompt", .null)]) else .absent

/-- A file system with one JSON file whose object maps the prompt key
to the number 7. -/
def fsNumPrompt : FS :=
  fun g => if g = "p.json" then .json (.obj [("prompt", .num 7)]) else .absent

/-- A file system with one JSON file whose object has no prompt key. -/
def fsNoKey : FS :=
  fun g => if g = "p.json" then .json (.obj [("other", .bool true)]) else .absent

/-- A menu iteration choosing Load with an empty filename answer (so
the default filename is used). -/
def loadInputDefault : IterInput :=
  { choice := "2", rawAnswers := ⟨"", "", "", "", ""⟩, saveAnswer := "",
    saveFilename := "", loadFilename := "" }

/-- A menu iteration choosing Generate, declining the save question. -/
def cInput7 : IterInput :=
  { choice := "1", rawAnswers := ⟨"test", "devs", "casual", "short", "none"⟩,
    saveAnswer := "no", saveFilename := "", loadFilename := "" }

/-- A Generate iteration answering the save question with a padded
upper-case yes. -/
def saveInputYes : IterInput :=
  { choice := "1", rawAnswers := ⟨"test", "devs", "casual", "short", "none"⟩,
    saveAnswer := "  YES  ", saveFilename := "", loadFilename := "" }

/-- A Generate iteration answering the save question with a bare y. -/
def saveInputY : IterInput :=
  { choice := "1", rawAnswers := ⟨"test", "devs", "casual", "short", "none"⟩,
    saveAnswer := "y", saveFilename := "", loadFilename := "" }

/-- A menu iteration with the unrecognized choice 9. -/
def invalidInput9 : IterInput :=
  { choice := "9", rawAnswers := ⟨"", "", "", "", ""⟩, saveAnswer := "",
    saveFilename := "", loadFilename := "" }

/-! ## Claim theorems -/

/-- C1: for every `QuestionnaireAnswers` record of five strings,
including empty ones, `generate_prompt` returns exactly the fixed
template with the five values substituted verbatim — no escaping,
truncation, or sanitization. -/
theorem generate_prompt_matches_template (a : QuestionnaireAnswers) :
    generate_prompt a =
      "Write a " ++ a.length ++ " response for " ++ a.target_audience ++
        " about " ++ a.purpose ++ ". The tone should be " ++ a.tone ++
        ". Additional details: " ++ a.specific_details ++ "." := by
  simp only [generate_prompt, String.append_assoc]
  rw [append_merge " " "about " " about " rfl]
  rw [append_merge ". " "Additional details: " ". Additional details: " rfl]

/-- C2: saving any prompt string (the empty string included) under any
filename and loading that filename back returns exactly the saved
string: save followed by load is the identity on the prompt. -/
theorem save_then_load_roundtrip (fs : FS) (p f : String) :
    load_prompt (save_prompt fs p f) f = .str p := by
  simp [load_prompt, save_prompt, dictGet]

/-- C3 counterexample: with the default prompt file holding the empty
prompt string, `load_prompt` succeeds and returns that string, yet the
Load branch of the menu prints the failure message and never calls the
generator — refuting the claim that every successfully loaded string is
displayed and passed to the Model Gateway. -/
theorem load_empty_string_takes_failure_path :
    load_prompt fsEmptyPrompt "prompt.json" = .str "" ∧
    (menuStep failGen 200 1 fsEmptyPrompt loadInputDefault).gatewayCalled = none ∧
    (menuStep failGen 200 1 fsEmptyPrompt loadInputDefault).displayedPrompt = none ∧
    (menuStep failGen 200 1 fsEmptyPrompt loadInputDefault).loadFailedMsg = true :=
  ⟨rfl, rfl, rfl, rfl⟩

/-- C3 (amended): in the Load branch, the loaded value is displayed and
passed to the generator exactly when it is truthy in the Python sense;
a falsy result — `None` from a load failure, but equally a successfully
loaded empty string — takes the error-message path back to the menu. -/
theorem load_choice_truthy_gate (generator : Generator) (ml ns : Nat) (fs : FS)
    (inp : IterInput) (hchoice : pyStrip inp.choice = "2") :
    ((menuStep generator ml ns fs inp).gatewayCalled =
      if pyTruthy (load_prompt fs (resolveFilename inp.loadFilename)) = true then
        some (load_prompt fs (resolveFilename inp.loadFilename)) else none) ∧
    ((menuStep generator ml ns fs inp).displayedPrompt =
      if pyTruthy (load_prompt fs (resolveFilename inp.loadFilename)) = true then
        some (load_prompt fs (resolveFilename inp.loadFilename)) else none) ∧
    ((menuStep generator ml ns fs inp).loadFailedMsg =
      !(pyTruthy (load_prompt fs (resolveFilename inp.loadFilename)))) := by
  by_cases ht : pyTruthy (load_prompt fs (resolveFilename inp.loadFilename)) = true
  · simp [menuStep, hchoice, ht]
  · simp [menuStep, hchoice, ht]

/-- C3 witness: a non-empty loaded prompt is passed to the generator
and no failure message is printed. -/
theorem load_choice_truthy_gate_witness :
    (menuStep failGen 200 1 fsHello loadInputDefault).gatewayCalled = some (.str "hello") ∧
    (menuStep failGen 200 1 fsHello loadInputDefault).loadFailedMsg = false := by
  have h := load_choice_truthy_gate failGen 200 1 fsHello loadInputDefault rfl
  exact ⟨h.1.trans rfl, h.2.2.trans rfl⟩

/-- C4 counterexample: on model-initialization failure `main` merely
logs and returns, and the interpreter exits with status 0 — not a
nonzero status — so the claim's nonzero-for-failure behavior is absent
and the two terminations share exit code 0. -/
theorem main_init_failure_exit_zero :
    (main (Except.error "model not found")).exitCode = 0 ∧
    (main (Except.error "model not found")).loggedInitError = true :=
  ⟨rfl, rfl⟩

/-- C4 (amended): the process exits with status 0 after the Exit menu
choice, and on model-initialization failure it logs an error and also
exits with status 0; the two terminations are not distinguishable by
exit code. -/
theorem main_exit_codes (g : Generator) (e : String) :
    (main (Except.ok g)).exitCode = 0 ∧
    (main (Except.ok g)).ranMainMenu = true ∧
    (main (Except.error e)).exitCode = 0 ∧
    (main (Except.error e)).loggedInitError = true ∧
    (main (Except.error e)).ranMainMenu = false :=
  ⟨rfl, rfl, rfl, rfl, rfl⟩

/-- C5: on a filename that names no existing file, `load_prompt`
returns the null result; the embedding is a total function, so no
unhandled error can escape. -/
theorem load_prompt_missing_file (fs : FS) (f : String) (h : fs f = .absent) :
    load_prompt fs f = .null := by
  simp [load_prompt, h]

/-- C5 witness: loading from an empty file system yields null. -/
theorem load_prompt_missing_file_witness :
    load_prompt emptyFS "prompt.json" = .null :=
  load_prompt_missing_file emptyFS "prompt.json" rfl

/-- C6: on a file holding valid JSON whose top-level object lacks the
prompt key, `load_prompt` returns the null result rather than a prompt
string. -/
theorem load_prompt_no_prompt_key (fs : FS) (f : String)
    (kvs : List (String × JsonVal)) (hfile : fs f = .json (.obj kvs))
    (hkey : dictGet kvs "prompt" = none) :
    load_prompt fs f = .null := by
  simp [load_prompt, hfile, hkey]

/-- C6 witness: a JSON object with only an unrelated key loads as
null. -/
theorem load_prompt_no_prompt_key_witness :
    load_prompt fsNoKey "p.json" = .null :=
  load_prompt_no_prompt_key fsNoKey "p.json" [("other", .bool true)] rfl rfl

/-- C7: when the pipeline call raises during the Generate choice,
`generate_response` catches it and yields the null result for the turn,
the shell prints the no-responses line, and the loop iteration still
continues back to the menu. -/
theorem generation_failure_continues (generator : Generator) (ml ns : Nat) (fs : FS)
    (inp : IterInput) (hchoice : pyStrip inp.choice = "1")
    (hfail : generator (.str (generate_prompt (get_user_input inp.rawAnswers))) ml ns = none) :
    generate_response generator (.str (generate_prompt (get_user_input inp.rawAnswers))) ml ns = none ∧
    (menuStep generator ml ns fs inp).continues = true ∧
    (menuStep generator ml ns fs inp).responses = none ∧
    (menuStep generator ml ns fs inp).noResponsesMsg = true := by
  have hresp :
      generate_response generator (.str (generate_prompt (get_user_input inp.rawAnswers))) ml ns = none := by
    simp [generate_response, hfail]
  refine ⟨hresp, ?_, ?_, ?_⟩ <;> simp [menuStep, hchoice, hresp, display_responses_empty]

/-- C7 witness: with an always-raising pipeline, the Generate iteration
yields no responses and continues. -/
theorem generation_failure_continues_witness :
    generate_response failGen (.str (generate_prompt (get_user_input cInput7.rawAnswers))) 200 1 = none ∧
    (menuStep failGen 200 1 emptyFS cInput7).continues = true ∧
    (menuStep failGen 200 1 emptyFS cInput7).responses = none ∧
    (menuStep failGen 200 1 emptyFS cInput7).noResponsesMsg = true :=
  generation_failure_continues failGen 200 1 emptyFS cInput7 rfl rfl

/-- C8: an iteration whose stripped choice is none of the three menu
options prints the invalid-choice message and keeps the loop alive; an
iteration leaves the loop exactly when the stripped choice is the Exit
option, and a whole run without an Exit choice never exits. -/
theorem menu_unrecognized_choice_loops (generator : Generator) (ml ns : Nat)
    (fs : FS) (inp : IterInput) (inputs : List IterInput)
    (h1 : pyStrip inp.choice ≠ "1") (h2 : pyStrip inp.choice ≠ "2")
    (h3 : pyStrip inp.choice ≠ "3")
    (hall : ∀ i ∈ inputs, pyStrip i.choice ≠ "3") :
    (menuStep generator ml ns fs inp).invalidChoiceMsg = true ∧
    (menuStep generator ml ns fs inp).continues = true ∧
    (∀ (fs2 : FS) (j : IterInput),
      ((menuStep generator ml ns fs2 j).continues = false ↔ pyStrip j.choice = "3")) ∧
    menuLoopExits generator ml ns fs inputs = false := by
  refine ⟨?_, ?_, fun fs2 j => menuStep_continues_iff generator ml ns fs2 j,
    menuLoop_no_exit generator ml ns inputs fs hall⟩
  · simp [menuStep, h1, h2, h3]
  · simp [menuStep, h1, h2, h3]

/-- C8 witness: the choice 9 prints the invalid-choice message and a
two-iteration run without an Exit choice leaves the loop alive. -/
theorem menu_unrecognized_choice_loops_witness :
    (menuStep failGen 200 1 emptyFS invalidInput9).invalidChoiceMsg = true ∧
    (menuStep failGen 200 1 emptyFS invalidInput9).continues = true ∧
    menuLoopExits failGen 200 1 emptyFS [invalidInput9, loadInputDefault] = false := by
  have h := menu_unrecognized_choice_loops failGen 200 1 emptyFS invalidInput9
    [invalidInput9, loadInputDefault]
    (by decide) (by decide) (by decide)
    (by
      intro i hi
      rcases List.mem_cons.mp hi with he | hmem
      · subst he; decide
      · rcases List.mem_cons.mp hmem with he2 | hnil
        · subst he2; decide
        · exact absurd hnil (List.not_mem_nil i))
  exact ⟨h.1, h.2.1, h.2.2.2⟩

/-- C9: in the Generate choice, the prompt is saved exactly when the
save answer, stripped and lowercased, is the literal yes; then it is
saved under the resolved filename, and otherwise the file system is
untouched. -/
theorem save_iff_yes (generator : Generator) (ml ns : Nat) (fs : FS)
    (inp : IterInput) (hchoice : pyStrip inp.choice = "1") :
    ((menuStep generator ml ns fs inp).savedTo =
      if pyLower (pyStrip inp.saveAnswer) = "yes" then some (resolveFilename inp.saveFilename)
      else none) ∧
    (((menuStep generator ml ns fs inp).savedTo).isSome = true ↔
      pyLower (pyStrip inp.saveAnswer) = "yes") ∧
    ((menuStep generator ml ns fs inp).fs =
      if pyLower (pyStrip inp.saveAnswer) = "yes" then
        save_prompt fs (generate_prompt (get_user_input inp.rawAnswers))
          (resolveFilename inp.saveFilename)
      else fs) := by
  by_cases hy : pyLower (pyStrip inp.saveAnswer) = "yes"
  · simp [menuStep, hchoice, hy]
  · simp [menuStep, hchoice, hy]

/-- C9 witness: a padded upper-case yes saves to the default filename,
while a bare y saves nothing. -/
theorem save_iff_yes_witness :
    (menuStep failGen 200 1 emptyFS saveInputYes).savedTo = some "prompt.json" ∧
    (menuStep failGen 200 1 emptyFS saveInputY).savedTo = none := by
  have hy := save_iff_yes failGen 200 1 emptyFS saveInputYes rfl
  have hn := save_iff_yes failGen 200 1 emptyFS saveInputY rfl
  exact ⟨hy.1.trans rfl, hn.1.trans rfl⟩

/-- C10: on a JSON object mapping the prompt key to null, `load_prompt`
returns null exactly as when the key is absent — a caller cannot tell
the two apart — and a present non-null value of any type is returned
as-is, with no string type check. -/
theorem load_prompt_null_indistinguishable (fs : FS) (f : String)
    (kvs : List (String × JsonVal)) (hfile : fs f = .json (.obj kvs)) :
    (dictGet kvs "prompt" = some .null → load_prompt fs f = .null) ∧
    (dictGet kvs "prompt" = none → load_prompt fs f = .null) ∧
    (∀ v, dictGet kvs "prompt" = some v → load_prompt fs f = v) := by
  refine ⟨fun h => ?_, fun h => ?_, fun v h => ?_⟩ <;> simp [load_prompt, hfile, h]

/-- C10 witness: a file with the prompt key mapped to null loads as
null, and one with the prompt key mapped to the number 7 loads as that
number. -/
theorem load_prompt_null_indistinguishable_witness :
    load_prompt fsNullPrompt "p.json" = .null ∧
    load_prompt fsNumPrompt "p.json" = .num 7 :=
  ⟨(load_prompt_null_indistinguishable fsNullPrompt "p.json" [("prompt", .null)] rfl).1 rfl,
   (load_prompt_null_indistinguishable fsNumPrompt "p.json" [("prompt", .num 7)] rfl).2.2 (.num 7) rfl⟩

end PromptGen
